import Mathlib

/-!
# Verification of the Universal InputMapper (src/src/inputMapper.ts)

Shallow embedding of the `InputMapper` component from
`src/src/inputMapper.ts`: device classification with caching
(`detectDevice`), the action registry (`registerAction`), dispatch with
fallback handler selection (`trigger`), manual override
(`setDeviceOverride`), session lifecycle hooks (`onPlayerJoin`,
`onPlayerLeave`) and the stats snapshot (`getPlayerStats`).

Modelling conventions:
* TypeScript `Map` objects become association lists with JS `Map`
  semantics (`mapGet` / `mapSet` / `mapDelete` / `mapHas`; `set` on an
  existing key updates in place, iteration follows insertion order).
* A JS expression that can throw (`player.name.get()`,
  `player.deviceType.get()`) is modelled by a `TryResult` value stored
  on the `Player`; the value is fixed per `Player` record, i.e. reads of
  the same signal during one call agree.
* Handlers are data: an identity `hid` plus a `raises` flag saying
  whether invoking the handler throws.  Invoking a handler and reading
  the raw device signal are recorded in an event trace (`Event`), so
  "the handler was invoked exactly once" and "the raw signal was not
  re-read" are statements about the trace.
* `console.log` / `console.warn` / `console.error` calls append a
  `LogEntry` (level plus a structured message mirroring exactly the
  data interpolated into the template string of the source).
* Methods that contain an unguarded `player.name.get()` outside any
  `try` (`onPlayerJoin`, `onPlayerLeave`, `setDeviceOverride`) return
  `MapperState × Bool`, the `Bool` recording whether an exception
  escaped; mutations performed before the throw point are kept, as in
  JS.  `detectDevice` and `trigger` wrap every throwing expression in
  `try`/`catch` and therefore simply return a state.
-/

namespace InputMapper

/-- Result of a JS expression that either yields a value or throws. -/
inductive TryResult (α : Type) where
  | ok (val : α)
  | thrown
deriving DecidableEq, Repr

/-- TS union type of device categories, line 39 of the source. -/
inductive DeviceType where
  | vr
  | mobile
  | desktop
deriving DecidableEq, Repr

/-- The raw Horizon device signal `hz.PlayerDeviceType`. -/
inductive HzPlayerDeviceType where
  | VR
  | Mobile
  | Desktop
deriving DecidableEq, Repr

/-- A participant: stable identifier plus the queryable signals
`player.name.get()` (a nullable string) and `player.deviceType.get()`,
each of which can throw. -/
structure Player where
  id : Nat
  nameSignal : TryResult (Option String)
  deviceSignal : TryResult HzPlayerDeviceType
deriving DecidableEq, Repr

/-- An action handler `(context) => void`: an identity for the event
trace plus whether invoking it raises. -/
structure Handler where
  hid : Nat
  raises : Bool
deriving DecidableEq, Repr

/-- Handler table type of the source (lines 51-55): three optional
handlers, one per device category.
An absent optional property is `none`. -/
structure ActionHandlers where
  vr : Option Handler
  mobile : Option Handler
  desktop : Option Handler
deriving DecidableEq, Repr

/-- Source expression `handlers[deviceType]` (line 291). -/
def ActionHandlers.get (h : ActionHandlers) : DeviceType → Option Handler
  | .vr => h.vr
  | .mobile => h.mobile
  | .desktop => h.desktop

/-- Source expression `Object.values(handlers)[0]` (line 300): the first defined handler
in property order.  The canonical property order of an `ActionHandlers`
literal is `vr`, `mobile`, `desktop`, matching the declaration order of
the type (lines 51-55). -/
def ActionHandlers.firstValue (h : ActionHandlers) : Option Handler :=
  (h.vr.toList ++ h.mobile.toList ++ h.desktop.toList).head?

/-- Source expression `Object.keys(handlers)` (line 261), in the canonical property
order. -/
def ActionHandlers.keys (h : ActionHandlers) : List String :=
  (if h.vr.isSome then ["vr"] else [])
    ++ (if h.mobile.isSome then ["mobile"] else [])
    ++ (if h.desktop.isSome then ["desktop"] else [])

/-- The `InteractionContext` (lines 41-45); the optional `entity` / `data`
payload fields are passed through to handlers untouched and are elided. -/
structure InteractionContext where
  player : Player
deriving DecidableEq, Repr

/-- Configuration from `propsDefinition` (lines 62-78). -/
structure Props where
  debugMode : Bool
  enableDeviceOverride : Bool
  fallbackToDesktop : Bool
deriving DecidableEq, Repr

/-- Severity of a `console.log` / `console.warn` / `console.error`
call. -/
inductive LogLevel where
  | info
  | warn
  | error
deriving DecidableEq, Repr

/-- The diagnostic messages the component emits, carrying exactly the
data interpolated into the template strings of the source. -/
inductive LogMsg where
  /-- line 146: player joined (name, device, total). -/
  | playerJoined (name : Option String) (device : DeviceType) (total : Int)
  /-- line 164: player left (name, total). -/
  | playerLeft (name : Option String) (total : Int)
  /-- line 196: cannot detect device type for server player. -/
  | cannotDetectServer
  /-- line 218: detected the device of a player (name, device). -/
  | detected (name : Option String) (device : DeviceType)
  /-- line 226: error detecting device type. -/
  | errorDetecting
  /-- line 253: action already registered, overwriting (action name). -/
  | actionOverwritten (actionName : String)
  /-- line 262: registered action (action name, device keys). -/
  | registeredAction (actionName : String) (deviceKeys : List String)
  /-- line 283: no handlers found for action (action name). -/
  | noHandlersFound (actionName : String)
  /-- line 310: executed action (action name, device, player name). -/
  | executed (actionName : String) (device : DeviceType) (name : Option String)
  /-- line 313: error executing action (action name only). -/
  | errorExecuting (actionName : String)
  /-- line 316: no compatible handler (action name, device). -/
  | noCompatibleHandler (actionName : String) (device : DeviceType)
  /-- line 338: device override disabled. -/
  | overrideDisabled
  /-- line 348: override set (player name, device). -/
  | overrideSet (name : Option String) (device : DeviceType)
deriving DecidableEq, Repr

/-- The device category interpolated into the text of a message, if
any (read off the template strings in the source). -/
def LogMsg.deviceTag : LogMsg → Option DeviceType
  | .playerJoined _ d _ => some d
  | .detected _ d => some d
  | .executed _ d _ => some d
  | .noCompatibleHandler _ d => some d
  | .overrideSet _ d => some d
  | _ => none

/-- The action name interpolated into the text of a message, if any. -/
def LogMsg.actionTag : LogMsg → Option String
  | .actionOverwritten a => some a
  | .registeredAction a _ => some a
  | .noHandlersFound a => some a
  | .executed a _ _ => some a
  | .errorExecuting a => some a
  | .noCompatibleHandler a _ => some a
  | _ => none

/-- One diagnostic record. -/
structure LogEntry where
  level : LogLevel
  msg : LogMsg
deriving DecidableEq, Repr

/-- Observable effect events: a read of the raw device signal
(`player.deviceType.get()`) and a handler invocation
(`handler(context)`). -/
inductive Event where
  | signalRead (playerId : String)
  | handlerInvoked (hid : Nat)
deriving DecidableEq, Repr

/-- The handler identities invoked, in order, in an event trace. -/
def invokedHandlers (evts : List Event) : List Nat :=
  evts.filterMap fun e =>
    match e with
    | .handlerInvoked hid => some hid
    | .signalRead _ => none

/-- JS `Map.get`. -/
def mapGet {α : Type} (m : List (String × α)) (k : String) : Option α :=
  match m with
  | [] => none
  | (k₁, v) :: rest => if k₁ = k then some v else mapGet rest k

/-- JS `Map.set`: updates in place if the key exists, appends
otherwise. -/
def mapSet {α : Type} (m : List (String × α)) (k : String) (v : α) :
    List (String × α) :=
  match m with
  | [] => [(k, v)]
  | (k₁, v₁) :: rest =>
      if k₁ = k then (k₁, v) :: rest else (k₁, v₁) :: mapSet rest k v

/-- JS `Map.delete`. -/
def mapDelete {α : Type} (m : List (String × α)) (k : String) :
    List (String × α) :=
  match m with
  | [] => []
  | (k₁, v₁) :: rest =>
      if k₁ = k then rest else (k₁, v₁) :: mapDelete rest k

/-- JS `Map.has`. -/
def mapHas {α : Type} (m : List (String × α)) (k : String) : Bool :=
  (mapGet m k).isSome

/-- The mutable state of the component: configuration props, the `actions`
registry (line 85), the `deviceCache` (line 88), `playerCount`
(line 91), plus the diagnostic log and the observable event trace. -/
structure MapperState where
  props : Props
  actions : List (String × ActionHandlers)
  deviceCache : List (String × DeviceType)
  playerCount : Int
  log : List LogEntry
  events : List Event
deriving DecidableEq, Repr

/-- Append one diagnostic record. -/
def emit (s : MapperState) (level : LogLevel) (msg : LogMsg) : MapperState :=
  { s with log := s.log ++ [⟨level, msg⟩] }

/-- Source method `isRealPlayer` (lines 410-418): `player.name.get()` must yield a
non-null, non-empty string different from "Server"; a throw is caught
and treated as not-a-real-player. -/
def isRealPlayer (player : Player) : Bool :=
  match player.nameSignal with
  | .thrown => false
  | .ok none => false
  | .ok (some playerName) => playerName.length > 0 && playerName ≠ "Server"

/-- Source method `detectDevice` (lines 184-230).  Returns the detected category and
the updated state.  Every throwing expression it evaluates is inside its
`try`/`catch`, so it never propagates an exception — reflected in the
return type, which has no thrown flag. -/
def detectDevice (s : MapperState) (player : Player) :
    DeviceType × MapperState :=
  let playerId := toString player.id
  -- lines 188-190: cached result wins, nothing else is looked at
  match mapGet s.deviceCache playerId with
  | some cached => (cached, s)
  | none =>
    -- try block, lines 192-222
    if !isRealPlayer player then
      -- lines 194-199
      let s := if s.props.debugMode then emit s .warn .cannotDetectServer else s
      (.desktop, s)
    else
      -- line 202: `player.deviceType.get()` — an observable signal read
      let s := { s with events := s.events ++ [.signalRead playerId] }
      match player.deviceSignal with
      | .thrown =>
          -- catch, lines 223-229: error diagnostic only in debug mode
          let s := if s.props.debugMode then emit s .error .errorDetecting else s
          (.desktop, s)
      | .ok deviceType =>
          -- lines 203-210
          let simpleType : DeviceType :=
            if deviceType = .VR then .vr
            else if deviceType = .Mobile then .mobile
            else .desktop
          -- line 214: cache the result
          let s := { s with deviceCache := mapSet s.deviceCache playerId simpleType }
          if s.props.debugMode then
            -- line 218 interpolates `player.name.get()` inside the try:
            -- a throw here would be caught (unreachable once
            -- `isRealPlayer` returned true, kept for faithfulness)
            match player.nameSignal with
            | .ok nm => (simpleType, emit s .info (.detected nm simpleType))
            | .thrown => (.desktop, emit s .error .errorDetecting)
          else (simpleType, s)

/-- Source method `registerAction` (lines 250-264). -/
def registerAction (s : MapperState) (actionName : String)
    (handlers : ActionHandlers) : MapperState :=
  -- lines 252-254: warn when overwriting
  let s := if mapHas s.actions actionName
    then emit s .warn (.actionOverwritten actionName) else s
  -- line 257
  let s := { s with actions := mapSet s.actions actionName handlers }
  -- lines 260-263
  if s.props.debugMode
  then emit s .info (.registeredAction actionName handlers.keys) else s

/-- Handler selection, lines 290-301 of `trigger`: the device-specific
handler, else (when `fallbackToDesktop`) the desktop handler, else the
first defined handler of the set. -/
def selectHandler (props : Props) (handlers : ActionHandlers)
    (deviceType : DeviceType) : Option Handler :=
  let handler := handlers.get deviceType
  let handler := if handler.isNone && props.fallbackToDesktop
    then handlers.desktop else handler
  if handler.isNone then handlers.firstValue else handler

/-- Source method `trigger` (lines 279-318).  Total: the handler call and the
`player.name.get()` in the success log are inside the `try`/`catch`
(lines 305-314), and `detectDevice` never throws. -/
def trigger (s : MapperState) (actionName : String)
    (context : InteractionContext) : MapperState :=
  -- lines 281-285
  match mapGet s.actions actionName with
  | none => emit s .warn (.noHandlersFound actionName)
  | some handlers =>
    -- line 288
    let r := detectDevice s context.player
    let deviceType := r.1
    let s := r.2
    -- lines 290-301
    match selectHandler s.props handlers deviceType with
    | some handler =>
      -- line 306: `handler(context)`
      let s := { s with events := s.events ++ [.handlerInvoked handler.hid] }
      if handler.raises then
        -- catch, lines 312-314: unconditional error diagnostic,
        -- tagged with the action name only
        emit s .error (.errorExecuting actionName)
      else
        -- lines 308-311: success log interpolates
        -- `context.player.name.get()` inside the try
        if s.props.debugMode then
          match context.player.nameSignal with
          | .ok nm => emit s .info (.executed actionName deviceType nm)
          | .thrown => emit s .error (.errorExecuting actionName)
        else s
    | none => emit s .warn (.noCompatibleHandler actionName deviceType)

/-- Source method `setDeviceOverride` (lines 335-350).  The debug log at line 348
interpolates `player.name.get()` outside any `try`; the `Bool` records
whether that read threw and escaped. -/
def setDeviceOverride (s : MapperState) (player : Player)
    (deviceType : DeviceType) : MapperState × Bool :=
  -- lines 337-340
  if !s.props.enableDeviceOverride then
    (emit s .warn .overrideDisabled, false)
  else
    -- lines 343-344
    let playerId := toString player.id
    let s := { s with deviceCache := mapSet s.deviceCache playerId deviceType }
    -- lines 347-349
    if s.props.debugMode then
      match player.nameSignal with
      | .ok nm => (emit s .info (.overrideSet nm deviceType), false)
      | .thrown => (s, true)
    else (s, false)

/-- Source method `onPlayerJoin` (lines 138-148): increments the count, then eagerly
classifies via `detectDevice`.  The debug log at line 146 interpolates
`player.name.get()` outside any `try`. -/
def onPlayerJoin (s : MapperState) (player : Player) : MapperState × Bool :=
  -- line 139
  let s := { s with playerCount := s.playerCount + 1 }
  -- line 142
  let r := detectDevice s player
  let deviceType := r.1
  let s := r.2
  -- lines 145-147
  if s.props.debugMode then
    match player.nameSignal with
    | .ok nm => (emit s .info (.playerJoined nm deviceType s.playerCount), false)
    | .thrown => (s, true)
  else (s, false)

/-- Source method `onPlayerLeave` (lines 154-166): decrements the count floored at
zero and evicts the cache entry.  The debug log at line 164 interpolates
`player.name.get()` outside any `try`. -/
def onPlayerLeave (s : MapperState) (player : Player) : MapperState × Bool :=
  -- line 156
  let s := { s with playerCount := max 0 (s.playerCount - 1) }
  -- lines 159-160
  let playerId := toString player.id
  let s := { s with deviceCache := mapDelete s.deviceCache playerId }
  -- lines 163-165
  if s.props.debugMode then
    match player.nameSignal with
    | .ok nm => (emit s .info (.playerLeft nm s.playerCount), false)
    | .thrown => (s, true)
  else (s, false)

/-- The stats record returned by `getPlayerStats` (line 361). -/
structure PlayerStats where
  total : Int
  vr : Nat
  mobile : Nat
  desktop : Nat
deriving DecidableEq, Repr

/-- The per-category component of a stats record. -/
def PlayerStats.ofDevice (st : PlayerStats) : DeviceType → Nat
  | .vr => st.vr
  | .mobile => st.mobile
  | .desktop => st.desktop

/-- The body of the `deviceCache.forEach` loop (lines 365-373). -/
def statsStep (stats : PlayerStats) (entry : String × DeviceType) :
    PlayerStats :=
  match entry.2 with
  | .vr => { stats with vr := stats.vr + 1 }
  | .mobile => { stats with mobile := stats.mobile + 1 }
  | .desktop => { stats with desktop := stats.desktop + 1 }

/-- Source method `getPlayerStats` (lines 361-376): seeds `total` with `playerCount`
and folds the counting loop over the cache. -/
def getPlayerStats (s : MapperState) : PlayerStats :=
  s.deviceCache.foldl statsStep
    { total := s.playerCount, vr := 0, mobile := 0, desktop := 0 }

/-- Number of cache entries mapped to a given category. -/
def countDevice (cache : List (String × DeviceType)) (d : DeviceType) : Nat :=
  (cache.filter fun entry => decide (entry.2 = d)).length

/-- A fresh component state with the given configuration (maps empty,
count zero, lines 85-91). -/
def initialState (props : Props) : MapperState :=
  { props := props, actions := [], deviceCache := [], playerCount := 0,
    log := [], events := [] }


/-!
## Concrete fixtures

Players, configurations and states used by witnesses and
counterexamples below.
-/

/-- All configuration flags at their editor defaults (lines 62-78). -/
def props0 : Props :=
  { debugMode := false, enableDeviceOverride := false, fallbackToDesktop := true }

/-- Default configuration with `debugMode` on. -/
def propsDebug : Props :=
  { debugMode := true, enableDeviceOverride := false, fallbackToDesktop := true }

/-- Default configuration with `enableDeviceOverride` on. -/
def propsOverride : Props :=
  { debugMode := false, enableDeviceOverride := true, fallbackToDesktop := true }

/-- A real VR participant. -/
def alice : Player :=
  { id := 1, nameSignal := .ok (some "Alice"), deviceSignal := .ok .VR }

/-- The same participant identifier after its raw signal changed to
Mobile. -/
def aliceChanged : Player :=
  { id := 1, nameSignal := .ok (some "Alice"), deviceSignal := .ok .Mobile }

/-- A server participant: its display name is the sentinel "Server". -/
def serverP : Player :=
  { id := 7, nameSignal := .ok (some "Server"), deviceSignal := .ok .Desktop }

/-- A real participant whose raw device signal read throws. -/
def failP : Player :=
  { id := 3, nameSignal := .ok (some "Bob"), deviceSignal := .thrown }

/-- A default-configuration state in which `alice` has been classified
(and so cached as VR). -/
def cachedState : MapperState := (detectDevice (initialState props0) alice).2

/-- A state in which `setDeviceOverride`, with the override flag on,
wrote VR into the cache for the Server-named participant. -/
def overriddenState : MapperState :=
  (setDeviceOverride (initialState propsOverride) serverP DeviceType.vr).1

/-- A desktop-only, non-raising handler. -/
def deskHandler : Handler := { hid := 10, raises := false }

/-- A handler set with only the desktop slot filled. -/
def deskOnly : ActionHandlers :=
  { vr := none, mobile := none, desktop := some deskHandler }

/-- A state with the action "door" registered desktop-only and `alice`
cached as VR. -/
def fallbackState : MapperState :=
  { props := props0, actions := [("door", deskOnly)],
    deviceCache := [("1", DeviceType.vr)], playerCount := 1,
    log := [], events := [] }

/-- A handler that raises when invoked. -/
def boom : Handler := { hid := 20, raises := true }

/-- A well-behaved handler. -/
def okH : Handler := { hid := 21, raises := false }

/-- Handler set for action "x" whose VR handler raises. -/
def boomSet : ActionHandlers := { vr := some boom, mobile := none, desktop := none }

/-- Handler set for action "y" whose VR handler succeeds. -/
def okSet : ActionHandlers := { vr := some okH, mobile := none, desktop := none }

/-- A state with a raising action "x", a healthy action "y", and
`alice` cached as VR. -/
def isolationState : MapperState :=
  { props := props0, actions := [("x", boomSet), ("y", okSet)],
    deviceCache := [("1", DeviceType.vr)], playerCount := 1,
    log := [], events := [] }

/-- First handler registered under action "a". -/
def hFirst : Handler := { hid := 30, raises := false }

/-- Second handler registered under action "a". -/
def hSecond : Handler := { hid := 31, raises := false }

/-- Handler set containing only `hFirst`. -/
def setFirst : ActionHandlers := { vr := some hFirst, mobile := none, desktop := none }

/-- Handler set containing only `hSecond`. -/
def setSecond : ActionHandlers := { vr := some hSecond, mobile := none, desktop := none }

/-- A state in which action "a" is registered with `setFirst` and
`alice` is cached as VR. -/
def regState : MapperState :=
  registerAction { initialState props0 with deviceCache := [("1", DeviceType.vr)] }
    "a" setFirst

/-!
## Supporting lemmas
-/

theorem mapGet_mapSet_self {α : Type} (m : List (String × α)) (k : String) (v : α) :
    mapGet (mapSet m k v) k = some v := by
  induction m with
  | nil => simp [mapSet, mapGet]
  | cons e rest ih =>
    obtain ⟨k₁, v₁⟩ := e
    by_cases h : k₁ = k <;> simp [mapSet, mapGet, h, ih]

theorem mapGet_mapSet_ne {α : Type} (m : List (String × α)) (k k₂ : String) (v : α)
    (h : k₂ ≠ k) : mapGet (mapSet m k v) k₂ = mapGet m k₂ := by
  induction m with
  | nil =>
    simp only [mapSet, mapGet, ite_eq_right_iff]
    exact fun hh => absurd hh.symm h
  | cons e rest ih =>
    obtain ⟨k₁, v₁⟩ := e
    by_cases h1 : k₁ = k <;> by_cases h2 : k₁ = k₂ <;>
      simp_all [mapSet, mapGet]

theorem mapGet_mem {α : Type} {m : List (String × α)} {k : String} {v : α}
    (h : mapGet m k = some v) : (k, v) ∈ m := by
  induction m with
  | nil => simp [mapGet] at h
  | cons e rest ih =>
    obtain ⟨k₁, v₁⟩ := e
    by_cases h1 : k₁ = k
    · simp [mapGet, h1] at h
      simp [h1, h]
    · simp [mapGet, h1] at h
      simp [ih h]

theorem countDevice_pos {m : List (String × DeviceType)} {k : String} {d : DeviceType}
    (h : mapGet m k = some d) : 0 < countDevice m d := by
  have hm : (k, d) ∈ m.filter fun entry => decide (entry.2 = d) :=
    List.mem_filter.2 ⟨mapGet_mem h, by simp⟩
  unfold countDevice
  exact List.length_pos.2 (List.ne_nil_of_mem hm)

theorem foldl_statsStep (l : List (String × DeviceType)) (acc : PlayerStats) :
    l.foldl statsStep acc =
      { total := acc.total, vr := acc.vr + countDevice l .vr,
        mobile := acc.mobile + countDevice l .mobile,
        desktop := acc.desktop + countDevice l .desktop } := by
  induction l generalizing acc with
  | nil => simp [countDevice]
  | cons e rest ih =>
    obtain ⟨k, d⟩ := e
    cases d <;> simp [statsStep, ih, countDevice, List.filter_cons] <;> omega

theorem getPlayerStats_eq (s : MapperState) :
    getPlayerStats s =
      { total := s.playerCount, vr := countDevice s.deviceCache .vr,
        mobile := countDevice s.deviceCache .mobile,
        desktop := countDevice s.deviceCache .desktop } := by
  simp [getPlayerStats, foldl_statsStep]

theorem detectDevice_cached (s : MapperState) (p : Player) (d : DeviceType)
    (h : mapGet s.deviceCache (toString p.id) = some d) :
    detectDevice s p = (d, s) := by
  unfold detectDevice
  simp [h]

theorem detectDevice_frame (s : MapperState) (p : Player) :
    (detectDevice s p).2.props = s.props ∧
    (detectDevice s p).2.actions = s.actions ∧
    (detectDevice s p).2.playerCount = s.playerCount := by
  unfold detectDevice
  cases hc : mapGet s.deviceCache (toString p.id) with
  | some d => simp [hc]
  | none =>
    cases hr : isRealPlayer p with
    | false => cases hd : s.props.debugMode <;> simp [hc, hr, hd, emit]
    | true =>
      cases hs : p.deviceSignal with
      | thrown => cases hd : s.props.debugMode <;> simp [hc, hr, hs, hd, emit]
      | ok dt =>
        cases hd : s.props.debugMode
        · simp [hc, hr, hs, hd, emit]
        · cases hn : p.nameSignal <;> simp [hc, hr, hs, hd, hn, emit]

theorem detectDevice_events (s : MapperState) (p : Player) :
    (detectDevice s p).2.events = s.events ∨
    (detectDevice s p).2.events = s.events ++ [.signalRead (toString p.id)] := by
  unfold detectDevice
  cases hc : mapGet s.deviceCache (toString p.id) with
  | some d => simp [hc]
  | none =>
    cases hr : isRealPlayer p with
    | false => cases hd : s.props.debugMode <;> simp [hc, hr, hd, emit]
    | true =>
      cases hs : p.deviceSignal with
      | thrown => cases hd : s.props.debugMode <;> simp [hc, hr, hs, hd, emit]
      | ok dt =>
        cases hd : s.props.debugMode
        · simp [hc, hr, hs, hd, emit]
        · cases hn : p.nameSignal <;> simp [hc, hr, hs, hd, hn, emit]

theorem invokedHandlers_append (l₁ l₂ : List Event) :
    invokedHandlers (l₁ ++ l₂) = invokedHandlers l₁ ++ invokedHandlers l₂ := by
  simp [invokedHandlers, List.filterMap_append]

theorem invokedHandlers_one_invoked (hid : Nat) :
    invokedHandlers [.handlerInvoked hid] = [hid] := rfl

theorem detectDevice_invoked (s : MapperState) (p : Player) :
    invokedHandlers (detectDevice s p).2.events = invokedHandlers s.events := by
  rcases detectDevice_events s p with h | h <;>
    simp [h, invokedHandlers_append, invokedHandlers]

theorem detectDevice_congr (s t : MapperState) (p : Player)
    (hp : s.props = t.props) (hc : s.deviceCache = t.deviceCache) :
    (detectDevice s p).1 = (detectDevice t p).1 ∧
    (detectDevice s p).2.deviceCache = (detectDevice t p).2.deviceCache := by
  unfold detectDevice
  cases hm : mapGet t.deviceCache (toString p.id) with
  | some d => simp [hp, hc, hm]
  | none =>
    cases hr : isRealPlayer p with
    | false => cases hd : t.props.debugMode <;> simp [hp, hc, hm, hr, hd, emit]
    | true =>
      cases hs : p.deviceSignal with
      | thrown => cases hd : t.props.debugMode <;> simp [hp, hc, hm, hr, hs, hd, emit]
      | ok dt =>
        cases hd : t.props.debugMode
        · simp [hp, hc, hm, hr, hs, hd, emit]
        · cases hn : p.nameSignal <;> simp [hp, hc, hm, hr, hs, hd, hn, emit]

theorem selectHandler_isSome (props : Props) (hs : ActionHandlers) (dt : DeviceType)
    (hne : (hs.vr.isSome || hs.mobile.isSome || hs.desktop.isSome) = true) :
    (selectHandler props hs dt).isSome = true := by
  obtain ⟨v, m, d⟩ := hs
  cases v <;> cases m <;> cases d <;> cases dt <;>
    cases hf : props.fallbackToDesktop <;>
      simp_all [selectHandler, ActionHandlers.get, ActionHandlers.firstValue]

theorem trigger_invokes (s : MapperState) (a : String) (ctx : InteractionContext)
    (hs : ActionHandlers) (h : Handler)
    (hreg : mapGet s.actions a = some hs)
    (hsel : selectHandler s.props hs (detectDevice s ctx.player).1 = some h) :
    invokedHandlers (trigger s a ctx).events = invokedHandlers s.events ++ [h.hid] := by
  unfold trigger
  rw [← (detectDevice_frame s ctx.player).1] at hsel
  simp only [hreg, hsel]
  cases hrs : h.raises <;>
    cases hd : (detectDevice s ctx.player).2.props.debugMode <;>
      cases hn : ctx.player.nameSignal <;>
        simp [hrs, hd, hn, emit, invokedHandlers_append,
          invokedHandlers_one_invoked, detectDevice_invoked]

theorem trigger_frame (s : MapperState) (a : String) (ctx : InteractionContext) :
    (trigger s a ctx).props = s.props ∧ (trigger s a ctx).actions = s.actions := by
  have hf := detectDevice_frame s ctx.player
  unfold trigger
  cases hreg : mapGet s.actions a with
  | none => simp [hreg, emit]
  | some hs =>
    cases hsel : selectHandler s.props hs (detectDevice s ctx.player).1 with
    | none => simp [hreg, hsel, emit, hf.1, hf.2.1]
    | some h =>
      cases hrs : h.raises <;>
        cases hd : s.props.debugMode <;>
          cases hn : ctx.player.nameSignal <;>
            simp [hreg, hsel, hrs, hd, hn, emit, hf.1, hf.2.1]

theorem trigger_raises_state (s : MapperState) (a : String)
    (ctx : InteractionContext) (hs : ActionHandlers) (h : Handler)
    (hreg : mapGet s.actions a = some hs)
    (hsel : selectHandler s.props hs (detectDevice s ctx.player).1 = some h)
    (hraise : h.raises = true) :
    trigger s a ctx =
      { (detectDevice s ctx.player).2 with
        events := (detectDevice s ctx.player).2.events ++ [.handlerInvoked h.hid],
        log := (detectDevice s ctx.player).2.log ++
          [⟨LogLevel.error, LogMsg.errorExecuting a⟩] } := by
  unfold trigger
  rw [← (detectDevice_frame s ctx.player).1] at hsel
  simp [hreg, hsel, hraise, emit]

theorem registerAction_frame (s : MapperState) (a : String) (hs : ActionHandlers) :
    (registerAction s a hs).props = s.props ∧
    (registerAction s a hs).deviceCache = s.deviceCache ∧
    (registerAction s a hs).actions = mapSet s.actions a hs := by
  unfold registerAction
  cases hh : mapHas s.actions a <;> cases hd : s.props.debugMode <;>
    simp [hh, hd, emit]

theorem onPlayerJoin_playerCount (s : MapperState) (p : Player) :
    (onPlayerJoin s p).1.playerCount = s.playerCount + 1 := by
  have hf := detectDevice_frame { s with playerCount := s.playerCount + 1 } p
  unfold onPlayerJoin
  cases hd : (detectDevice { s with playerCount := s.playerCount + 1 } p).2.props.debugMode <;>
    cases hn : p.nameSignal <;>
      simp [hd, hn, emit, hf.2.2]


/-!
## Claim theorems
-/

/-- Claim C1: for every registered action and interaction context,
`trigger` selects the handler by precedence — the handler for the
classified device category first; failing that, when the
`fallbackToDesktop` flag is on, the desktop handler; failing that, the
first remaining handler of the set in the canonical deterministic
order — so a non-empty handler set always gets exactly one handler
invoked.  In particular a desktop-only set with `fallbackToDesktop` on
serves a VR-classified participant with the desktop handler, invoked
exactly once. -/
theorem trigger_handler_precedence (s : MapperState) (a : String)
    (ctx : InteractionContext) (hs : ActionHandlers)
    (hreg : mapGet s.actions a = some hs) :
    (∀ h, hs.get (detectDevice s ctx.player).1 = some h →
      selectHandler s.props hs (detectDevice s ctx.player).1 = some h) ∧
    (hs.get (detectDevice s ctx.player).1 = none →
      s.props.fallbackToDesktop = true → ∀ h, hs.desktop = some h →
      selectHandler s.props hs (detectDevice s ctx.player).1 = some h) ∧
    (hs.get (detectDevice s ctx.player).1 = none →
      (s.props.fallbackToDesktop = false ∨ hs.desktop = none) →
      selectHandler s.props hs (detectDevice s ctx.player).1 = hs.firstValue) ∧
    ((hs.vr.isSome || hs.mobile.isSome || hs.desktop.isSome) = true →
      ∃ h, selectHandler s.props hs (detectDevice s ctx.player).1 = some h ∧
        invokedHandlers (trigger s a ctx).events =
          invokedHandlers s.events ++ [h.hid]) ∧
    (hs.vr = none → hs.mobile = none → s.props.fallbackToDesktop = true →
      (detectDevice s ctx.player).1 = DeviceType.vr →
      ∀ h, hs.desktop = some h →
      invokedHandlers (trigger s a ctx).events =
        invokedHandlers s.events ++ [h.hid]) := by
  refine ⟨?_, ?_, ?_, ?_, ?_⟩
  · intro h hget
    simp [selectHandler, hget]
  · intro hget hfb h hdesk
    simp [selectHandler, hget, hfb, hdesk]
  · intro hget hor
    rcases hor with hfb | hdesk
    · simp [selectHandler, hget, hfb]
    · cases hfb : s.props.fallbackToDesktop <;>
        simp [selectHandler, hget, hfb, hdesk]
  · intro hne
    have hsome := selectHandler_isSome s.props hs (detectDevice s ctx.player).1 hne
    obtain ⟨h, hsel⟩ := Option.isSome_iff_exists.1 hsome
    exact ⟨h, hsel, trigger_invokes s a ctx hs h hreg hsel⟩
  · intro hvr hmob hfb hdt h hdesk
    have hsel : selectHandler s.props hs (detectDevice s ctx.player).1 = some h := by
      rw [hdt]
      simp [selectHandler, ActionHandlers.get, hvr, hfb, hdesk]
    exact trigger_invokes s a ctx hs h hreg hsel

/-- Witness for claim C1: the desktop-only fallback instance, invoked
exactly once. -/
theorem trigger_handler_precedence_witness :
    (mapGet fallbackState.actions "door" = some deskOnly ∧
      deskOnly.vr = none ∧ deskOnly.mobile = none ∧
      fallbackState.props.fallbackToDesktop = true ∧
      (detectDevice fallbackState alice).1 = DeviceType.vr ∧
      deskOnly.desktop = some deskHandler) ∧
    invokedHandlers (trigger fallbackState "door" ⟨alice⟩).events =
      invokedHandlers fallbackState.events ++ [deskHandler.hid] :=
  ⟨⟨by decide, by decide, by decide, by decide, by decide, by decide⟩,
    (trigger_handler_precedence fallbackState "door" ⟨alice⟩ deskOnly
        (by decide)).2.2.2.2 (by decide) (by decide) (by decide) (by decide)
      deskHandler (by decide)⟩

/-- Claim C2: once the identifier of a participant has a cache entry,
classification returns exactly that category and leaves the whole state
— in particular the event trace, hence no raw-signal read — unchanged;
the result is the same for any participant value carrying the same
identifier, so repeated classify calls keep returning what the caching
call returned even if the underlying raw signal changes in between. -/
theorem classify_cached_idempotent (s : MapperState) (p q : Player) (d : DeviceType)
    (hid : toString q.id = toString p.id)
    (hcache : mapGet s.deviceCache (toString p.id) = some d) :
    detectDevice s q = (d, s) := by
  apply detectDevice_cached
  rw [hid]
  exact hcache

/-- Witness for claim C2: after `alice` is cached as VR, classifying
the same identifier with a changed raw signal (Mobile) still returns VR
and leaves the state untouched. -/
theorem classify_cached_idempotent_witness :
    (toString aliceChanged.id = toString alice.id ∧
      mapGet cachedState.deviceCache (toString alice.id) = some DeviceType.vr) ∧
    detectDevice cachedState aliceChanged = (DeviceType.vr, cachedState) :=
  ⟨by decide,
    classify_cached_idempotent cachedState alice aliceChanged DeviceType.vr
      (by decide) (by decide)⟩

/-- Counterexample to claim C3: right after `onPlayerJoin` for a fresh
real player the classification cache already holds an entry, so the
statement that the join hook leaves the cache unchanged and only a
later trigger or classify call creates the entry is false on the code
(the hook calls `detectDevice` at line 142, as its own doc comment
says). -/
theorem join_eager_classify_cex :
    (onPlayerJoin (initialState props0) alice).1.deviceCache ≠
      (initialState props0).deviceCache ∧
    mapGet (onPlayerJoin (initialState props0) alice).1.deviceCache
      (toString alice.id) = some DeviceType.vr := by decide

/-- Claim C3 as amended: the join hook increments the live-participant
count and eagerly classifies the joining participant — its cache is
exactly the cache produced by a `detectDevice` call at join time, so a
real participant with a readable signal is cached at join, not at the
first later trigger or classify call. -/
theorem join_increments_and_classifies (s : MapperState) (p : Player) :
    (onPlayerJoin s p).1.playerCount = s.playerCount + 1 ∧
    (onPlayerJoin s p).1.deviceCache =
      (detectDevice { s with playerCount := s.playerCount + 1 } p).2.deviceCache := by
  refine ⟨onPlayerJoin_playerCount s p, ?_⟩
  unfold onPlayerJoin
  cases hd : (detectDevice { s with playerCount := s.playerCount + 1 } p).2.props.debugMode <;>
    cases hn : p.nameSignal <;>
      simp [hd, hn, emit]

/-- Counterexample to claim C4: a participant named "Server" whose
identifier has a cache entry (written by `setDeviceOverride` with the
override flag on) is classified as the cached category VR, not Desktop
— the unconditional form of the claim is false on the code because the
cache lookup precedes the sentinel check. -/
theorem sentinel_cached_cex :
    serverP.nameSignal = .ok (some "Server") ∧
    (detectDevice overriddenState serverP).1 = DeviceType.vr ∧
    (detectDevice overriddenState serverP).1 ≠ DeviceType.desktop := by decide

/-- Claim C4 as amended with a cache-miss precondition: when the
identifier of the participant has no cache entry and the display name
is empty or the sentinel "Server", classification returns Desktop,
creates no cache entry, and a subsequent stats snapshot is
unchanged. -/
theorem sentinel_desktop_on_cache_miss (s : MapperState) (p : Player)
    (hmiss : mapGet s.deviceCache (toString p.id) = none)
    (hname : p.nameSignal = .ok (some "") ∨ p.nameSignal = .ok (some "Server")) :
    (detectDevice s p).1 = DeviceType.desktop ∧
    (detectDevice s p).2.deviceCache = s.deviceCache ∧
    (detectDevice s p).2.deviceCache.length = s.deviceCache.length ∧
    getPlayerStats (detectDevice s p).2 = getPlayerStats s := by
  have hreal : isRealPlayer p = false := by
    rcases hname with h | h <;> simp [isRealPlayer, h]
  unfold detectDevice
  cases hd : s.props.debugMode <;>
    simp [hmiss, hreal, hd, emit, getPlayerStats_eq]

/-- Witness for claim C4: the Server-named participant on a fresh
state. -/
theorem sentinel_desktop_on_cache_miss_witness :
    (mapGet (initialState props0).deviceCache (toString serverP.id) = none ∧
      (serverP.nameSignal = .ok (some "") ∨
        serverP.nameSignal = .ok (some "Server"))) ∧
    (detectDevice (initialState props0) serverP).1 = DeviceType.desktop ∧
    (detectDevice (initialState props0) serverP).2.deviceCache =
      (initialState props0).deviceCache ∧
    (detectDevice (initialState props0) serverP).2.deviceCache.length =
      (initialState props0).deviceCache.length ∧
    getPlayerStats (detectDevice (initialState props0) serverP).2 =
      getPlayerStats (initialState props0) :=
  ⟨⟨by decide, Or.inr (by decide)⟩,
    sentinel_desktop_on_cache_miss (initialState props0) serverP (by decide)
      (Or.inr (by decide))⟩

/-- Counterexample to claim C5: with `debugMode` off (the default), a
failure reading the raw device signal is caught and resolved to
Desktop but no error-level diagnostic — indeed no diagnostic at all —
is emitted, so the unconditional "logs an error-level diagnostic" is
false on the code (lines 225-227 gate the log on `debugMode`). -/
theorem signal_failure_silent_cex :
    failP.deviceSignal = .thrown ∧
    (detectDevice (initialState props0) failP).1 = DeviceType.desktop ∧
    (detectDevice (initialState props0) failP).2.log = [] ∧
    List.filter (fun e => decide (e.level = LogLevel.error))
      (detectDevice (initialState props0) failP).2.log = [] := by decide

/-- Claim C5 as amended (the error-level diagnostic is emitted only
when `debugMode` is enabled): a failure reading the raw device signal
is caught, resolved to Desktop, never cached and never propagated —
`detectDevice` is total, every throwing read being consumed inside its
try/catch — and the error-level diagnostic appears exactly when
`debugMode` is on. -/
theorem classify_catches_signal_failure (s : MapperState) (p : Player)
    (hmiss : mapGet s.deviceCache (toString p.id) = none)
    (hreal : isRealPlayer p = true)
    (hfail : p.deviceSignal = .thrown) :
    (detectDevice s p).1 = DeviceType.desktop ∧
    (detectDevice s p).2.deviceCache = s.deviceCache ∧
    (detectDevice s p).2.log =
      s.log ++ (if s.props.debugMode
        then [⟨LogLevel.error, LogMsg.errorDetecting⟩] else []) ∧
    (detectDevice s p).2.events = s.events ++ [.signalRead (toString p.id)] := by
  unfold detectDevice
  cases hd : s.props.debugMode <;> simp [hmiss, hreal, hfail, hd, emit]

/-- Witness for claim C5: the throwing-signal participant on a fresh
debug-mode state. -/
theorem classify_catches_signal_failure_witness :
    (mapGet (initialState propsDebug).deviceCache (toString failP.id) = none ∧
      isRealPlayer failP = true ∧ failP.deviceSignal = .thrown) ∧
    (detectDevice (initialState propsDebug) failP).1 = DeviceType.desktop ∧
    (detectDevice (initialState propsDebug) failP).2.deviceCache =
      (initialState propsDebug).deviceCache ∧
    (detectDevice (initialState propsDebug) failP).2.log =
      (initialState propsDebug).log ++
        (if (initialState propsDebug).props.debugMode
          then [⟨LogLevel.error, LogMsg.errorDetecting⟩] else []) ∧
    (detectDevice (initialState propsDebug) failP).2.events =
      (initialState propsDebug).events ++ [.signalRead (toString failP.id)] :=
  ⟨⟨by decide, by decide, by decide⟩,
    classify_catches_signal_failure (initialState propsDebug) failP
      (by decide) (by decide) (by decide)⟩

/-- Counterexample to claim C6: when a handler raises, the diagnostic
the dispatch emits is error-level and carries the action name but no
device category — the "tagged with the action name and the device
category" part of the claim is false on the code (line 313 interpolates
only the action name). -/
theorem handler_error_untagged_cex :
    (trigger isolationState "x" ⟨alice⟩).log =
      [⟨LogLevel.error, LogMsg.errorExecuting "x"⟩] ∧
    ((trigger isolationState "x" ⟨alice⟩).log.map fun e => e.msg.deviceTag) =
      [none] ∧
    ((trigger isolationState "x" ⟨alice⟩).log.map fun e => e.msg.actionTag) =
      [some "x"] := by decide

/-- Claim C6 as amended (the error diagnostic is tagged with the action
name only, not the device category): a raising handler is caught at the
dispatch boundary — `trigger` returns normally, the registry is
unchanged and the classification cache is exactly what it was after
detection, the only new diagnostic is the error entry for the action —
and a following independent `trigger` still invokes its selected
handler normally. -/
theorem trigger_handler_failure_isolated (s : MapperState) (a : String)
    (ctx : InteractionContext) (hs : ActionHandlers) (h : Handler)
    (hreg : mapGet s.actions a = some hs)
    (hsel : selectHandler s.props hs (detectDevice s ctx.player).1 = some h)
    (hraise : h.raises = true) :
    (trigger s a ctx).actions = s.actions ∧
    (trigger s a ctx).deviceCache = (detectDevice s ctx.player).2.deviceCache ∧
    (trigger s a ctx).log = (detectDevice s ctx.player).2.log ++
      [⟨LogLevel.error, LogMsg.errorExecuting a⟩] ∧
    LogMsg.actionTag (.errorExecuting a) = some a ∧
    LogMsg.deviceTag (.errorExecuting a) = none ∧
    (∀ (b : String) (ctx₂ : InteractionContext) (hs₂ : ActionHandlers) (h₂ : Handler),
      mapGet s.actions b = some hs₂ →
      selectHandler s.props hs₂ (detectDevice (trigger s a ctx) ctx₂.player).1 = some h₂ →
      invokedHandlers (trigger (trigger s a ctx) b ctx₂).events =
        invokedHandlers (trigger s a ctx).events ++ [h₂.hid]) := by
  have hst := trigger_raises_state s a ctx hs h hreg hsel hraise
  have hf := detectDevice_frame s ctx.player
  refine ⟨?_, ?_, ?_, rfl, rfl, ?_⟩
  · rw [hst]
    exact hf.2.1
  · rw [hst]
  · rw [hst]
  · intro b ctx₂ hs₂ h₂ hreg₂ hsel₂
    apply trigger_invokes (trigger s a ctx) b ctx₂ hs₂ h₂
    · rw [(trigger_frame s a ctx).2]
      exact hreg₂
    · rw [(trigger_frame s a ctx).1]
      exact hsel₂

/-- Witness for claim C6: the raising action "x" does not prevent the
following independent action "y" from invoking its handler. -/
theorem trigger_handler_failure_isolated_witness :
    (mapGet isolationState.actions "x" = some boomSet ∧
      selectHandler isolationState.props boomSet
        (detectDevice isolationState alice).1 = some boom ∧
      boom.raises = true) ∧
    invokedHandlers (trigger (trigger isolationState "x" ⟨alice⟩) "y" ⟨alice⟩).events =
      invokedHandlers (trigger isolationState "x" ⟨alice⟩).events ++ [okH.hid] :=
  ⟨⟨by decide, by decide, by decide⟩,
    (trigger_handler_failure_isolated isolationState "x" ⟨alice⟩ boomSet boom
        (by decide) (by decide) (by decide)).2.2.2.2.2 "y" ⟨alice⟩ okSet okH
      (by decide) (by decide)⟩

/-- Claim C7: registering a handler set under an already-registered
name is last-write-wins — the registry maps the name to the new set,
other names are untouched, a warning diagnostic (never an error) is
emitted — and a subsequent `trigger` for that name invokes the handler
selected from the second set. -/
theorem register_last_write_wins (s : MapperState) (a : String)
    (hs₂ : ActionHandlers) (hprev : mapHas s.actions a = true) :
    mapGet (registerAction s a hs₂).actions a = some hs₂ ∧
    (∀ b, b ≠ a → mapGet (registerAction s a hs₂).actions b = mapGet s.actions b) ∧
    (∃ rest, (registerAction s a hs₂).log =
        s.log ++ ⟨LogLevel.warn, LogMsg.actionOverwritten a⟩ :: rest ∧
      ∀ e ∈ rest, e.level ≠ LogLevel.error) ∧
    (∀ (ctx : InteractionContext) (h : Handler),
      selectHandler s.props hs₂ (detectDevice (registerAction s a hs₂) ctx.player).1 = some h →
      invokedHandlers (trigger (registerAction s a hs₂) a ctx).events =
        invokedHandlers (registerAction s a hs₂).events ++ [h.hid]) := by
  have hfr := registerAction_frame s a hs₂
  refine ⟨?_, ?_, ?_, ?_⟩
  · rw [hfr.2.2]
    exact mapGet_mapSet_self s.actions a hs₂
  · intro b hb
    rw [hfr.2.2]
    exact mapGet_mapSet_ne s.actions a b hs₂ hb
  · unfold registerAction
    cases hd : s.props.debugMode <;> simp [hprev, hd, emit]
  · intro ctx h hsel
    apply trigger_invokes (registerAction s a hs₂) a ctx hs₂ h
    · rw [hfr.2.2]
      exact mapGet_mapSet_self s.actions a hs₂
    · rw [hfr.1]
      exact hsel

/-- Witness for claim C7: action "a" registered twice; the trigger
invokes the handler of the second set. -/
theorem register_last_write_wins_witness :
    (mapHas regState.actions "a" = true) ∧
    mapGet (registerAction regState "a" setSecond).actions "a" = some setSecond ∧
    invokedHandlers (trigger (registerAction regState "a" setSecond) "a" ⟨alice⟩).events =
      invokedHandlers (registerAction regState "a" setSecond).events ++ [hSecond.hid] :=
  ⟨by decide,
    (register_last_write_wins regState "a" setSecond (by decide)).1,
    (register_last_write_wins regState "a" setSecond (by decide)).2.2.2 ⟨alice⟩
      hSecond (by decide)⟩

/-- Claim C8: with the `enableDeviceOverride` flag off,
`setDeviceOverride` is a no-op apart from one warning diagnostic — it
does not throw, changes no cache/registry/count state, and a subsequent
classification of any participant returns the same category as if the
call had never happened; with the flag on, it writes the category
straight into the cache, so classifying that participant returns it. -/
theorem override_gating (s : MapperState) (p : Player) (c : DeviceType) :
    (s.props.enableDeviceOverride = false →
      setDeviceOverride s p c = (emit s .warn .overrideDisabled, false) ∧
      (setDeviceOverride s p c).1.deviceCache = s.deviceCache ∧
      (setDeviceOverride s p c).1.actions = s.actions ∧
      (setDeviceOverride s p c).1.playerCount = s.playerCount ∧
      (setDeviceOverride s p c).1.events = s.events ∧
      (∀ q, (detectDevice (setDeviceOverride s p c).1 q).1 =
        (detectDevice s q).1)) ∧
    (s.props.enableDeviceOverride = true →
      (setDeviceOverride s p c).1.deviceCache =
        mapSet s.deviceCache (toString p.id) c ∧
      (detectDevice (setDeviceOverride s p c).1 p).1 = c) := by
  constructor
  · intro hoff
    have hstate : setDeviceOverride s p c = (emit s .warn .overrideDisabled, false) := by
      unfold setDeviceOverride
      simp [hoff]
    refine ⟨hstate, ?_, ?_, ?_, ?_, ?_⟩ <;> rw [hstate]
    · rfl
    · rfl
    · rfl
    · rfl
    · intro q
      exact (detectDevice_congr (emit s .warn .overrideDisabled) s q rfl rfl).1
  · intro hon
    have hc : (setDeviceOverride s p c).1.deviceCache =
        mapSet s.deviceCache (toString p.id) c := by
      unfold setDeviceOverride
      cases hd : s.props.debugMode <;> cases hn : p.nameSignal <;>
        simp [hon, hd, hn, emit]
    refine ⟨hc, ?_⟩
    have hcached := detectDevice_cached (setDeviceOverride s p c).1 p c
      (by rw [hc]; exact mapGet_mapSet_self _ _ _)
    rw [hcached]

/-- Witness for claim C8: with the flag off, a Mobile override on
`alice` does not change what a subsequent classification returns. -/
theorem override_gating_witness :
    (initialState props0).props.enableDeviceOverride = false ∧
    (detectDevice (setDeviceOverride (initialState props0) alice DeviceType.mobile).1 alice).1 =
      (detectDevice (initialState props0) alice).1 :=
  ⟨by decide,
    ((override_gating (initialState props0) alice DeviceType.mobile).1
      (by decide)).2.2.2.2.2 alice⟩

/-- Claim C9: the per-category counts of the stats snapshot are exactly
the occurrence counts of each category in the current classification
cache and its `total` is the live-participant counter, which joins
increment and leaves decrement floored at zero; the total can exceed
the cache size — concretely, after a server participant joins, the
total is 1 while the cache is empty. -/
theorem stats_snapshot_spec (s : MapperState) (p q : Player) :
    getPlayerStats s =
      { total := s.playerCount,
        vr := countDevice s.deviceCache .vr,
        mobile := countDevice s.deviceCache .mobile,
        desktop := countDevice s.deviceCache .desktop } ∧
    (onPlayerJoin s p).1.playerCount = s.playerCount + 1 ∧
    (onPlayerLeave s q).1.playerCount = max 0 (s.playerCount - 1) ∧
    (getPlayerStats (onPlayerJoin (initialState props0) serverP).1).total = 1 ∧
    (onPlayerJoin (initialState props0) serverP).1.deviceCache.length = 0 := by
  refine ⟨getPlayerStats_eq s, onPlayerJoin_playerCount s p, ?_, by decide, by decide⟩
  unfold onPlayerLeave
  cases hd : s.props.debugMode <;> cases hn : q.nameSignal <;>
    simp [hd, hn, emit]

/-- Claim C10: the cache lookup in classification precedes the
non-participant sentinel check — a cached identifier, however the entry
got there, including a `setDeviceOverride` write for a participant
named "Server", is returned as-is with the name never examined, the
state is untouched, and the entry is counted in a subsequent stats
snapshot. -/
theorem cache_precedes_sentinel (s : MapperState) (p : Player) (d : DeviceType)
    (hcache : mapGet s.deviceCache (toString p.id) = some d) :
    (detectDevice s p).1 = d ∧ (detectDevice s p).2 = s ∧
    (∀ n, detectDevice s { p with nameSignal := n } = (d, s)) ∧
    1 ≤ PlayerStats.ofDevice (getPlayerStats (detectDevice s p).2) d := by
  have h1 := detectDevice_cached s p d hcache
  refine ⟨by rw [h1], by rw [h1], ?_, ?_⟩
  · intro n
    exact detectDevice_cached _ _ _ (by simpa using hcache)
  · rw [h1]
    have hpos := countDevice_pos hcache
    rw [getPlayerStats_eq]
    cases d <;> simpa [PlayerStats.ofDevice] using hpos

/-- Witness for claim C10: a cache entry written by the override for
the Server-named participant is returned by classification. -/
theorem cache_precedes_sentinel_witness :
    mapGet overriddenState.deviceCache (toString serverP.id) = some DeviceType.vr ∧
    (detectDevice overriddenState serverP).1 = DeviceType.vr :=
  ⟨by decide,
    (cache_precedes_sentinel overriddenState serverP DeviceType.vr (by decide)).1⟩


end InputMapper
